import Mathlib

/-!
Shallow embedding of the ChatWithMe client (`src/app.js`) and verification of
its specification claims.

The JavaScript class `ChatWithMeApp` keeps its session state in instance
fields (`currentUser`, `contacts`, `currentPrivateChatUser`, `selectedActivity`,
`invitationTargetUser`, `currentInvitation`) and renders into fixed DOM
containers.  We model the instance fields together with the DOM surfaces the
handlers write to (the two public message lists, the single private message
list, the modal visibility flags, the text inputs) as one record `State`.

Network interaction (`fetch`) is modelled by an explicit outcome parameter
(`FetchOutcome`): a 2xx response, a delivered non-2xx response carrying the
server's error detail, or a thrown network exception.  Each user action or
inbound handler is a pure function `State → ... → State × Eff`, where `Eff`
records the one-shot requests issued and the `alert` messages shown.
`console.log` / `console.error` calls are not modelled (they are invisible to
the user and touch no state).  Percent-encoding of form fields
(`encodeURIComponent`) is a transport concern and is left out: form bodies are
modelled as association lists of raw field names and values.
-/

/-- A user object as delivered by the backend and consumed by the client
(`id`, `username`, `avatar_url`, `chat_side`). -/
structure User where
  id : String
  username : String
  avatar_url : String
  chat_side : String
deriving Repr, DecidableEq

/-- A contact entry (`{user, summary}`) from `/users/:id/contacts`. -/
structure Contact where
  user : User
  summary : String
deriving Repr, DecidableEq

/-- A message object as delivered over the push channel.  The client reads
`sender`, `content`, `timestamp` and `is_public`; `recipient_id` is carried by
private messages but never inspected by the client code. -/
structure Message where
  sender : User
  content : String
  timestamp : String
  is_public : Bool
  recipient_id : Option String
deriving Repr, DecidableEq

/-- An activity invitation as delivered over the push channel
(`id`, `from_user`, `activity`, `message`). -/
structure Invitation where
  id : String
  from_user : User
  activity : String
  message : String
deriving Repr, DecidableEq

/-- The payload of an `invitation_response` push event. -/
structure InvResponse where
  accepted : Bool
  responder : User
  activity : String
deriving Repr, DecidableEq

/-- A one-shot HTTP request issued by the client; the body is an association
list of form fields. -/
inductive Request where
  | post (url : String) (body : List (String × String))
  | get (url : String)
deriving Repr, DecidableEq

/-- Observable side effects of one handler invocation: the one-shot requests
issued and the `alert` messages shown to the user. -/
structure Eff where
  requests : List Request
  alerts : List String
deriving Repr, DecidableEq

/-- No request issued, no alert shown. -/
def Eff.noEffect : Eff := ⟨[], []⟩

/-- Outcome of an awaited `fetch` call: a 2xx response, a delivered non-2xx
response carrying the server-provided error detail, or a thrown network
exception. -/
inductive FetchOutcome where
  | ok
  | httpError (detail : String)
  | exn
deriving Repr, DecidableEq

/-- The session and rendering state of `ChatWithMeApp` after login: the
instance fields of the class together with the DOM surfaces its handlers
mutate.  Message surfaces hold pairs of the message and its
`isFromCurrentUser` classification (`sent` vs `received`). -/
structure State where
  currentUser : User
  contacts : List Contact
  currentPrivateChatUser : Option User
  selectedActivity : Option String
  invitationTargetUser : Option User
  currentInvitation : Option Invitation
  chatwithmeMessages : List (Message × Bool)
  towhomMessages : List (Message × Bool)
  privateMessages : List (Message × Bool)
  chatwithmeInput : String
  towhomInput : String
  privateMessageInput : String
  invitationMessageInput : String
  invitationModalHidden : Bool
  activityModalHidden : Bool
  privateChatModalHidden : Bool
  invitationContent : Option Invitation
  notifications : List String
deriving Repr, DecidableEq

/-- `addMessageToChat(message, type)` (src/app.js:479-501): computes
`isFromCurrentUser` from the sender id, then appends the message element to
BOTH public containers when `type` is `public`, and to the single
`private-messages` container otherwise — with no condition on
`currentPrivateChatUser`. -/
def addMessageToChat (s : State) (message : Message) (ty : String) : State :=
  let isFromCurrentUser := message.sender.id == s.currentUser.id
  if ty == "public" then
    { s with
      chatwithmeMessages := s.chatwithmeMessages ++ [(message, isFromCurrentUser)]
      towhomMessages := s.towhomMessages ++ [(message, isFromCurrentUser)] }
  else
    { s with privateMessages := s.privateMessages ++ [(message, isFromCurrentUser)] }

/-- `handleNewMessage(message)` (src/app.js:196-202): branches only on
`message.is_public`. -/
def handleNewMessage (s : State) (message : Message) : State :=
  if message.is_public then
    addMessageToChat s message "public"
  else
    addMessageToChat s message "private"

/-- `handleActivityInvitation(invitation)` (src/app.js:403-416): overwrites
`currentInvitation` unconditionally, renders the invitation into the modal
content and un-hides the invitation modal. -/
def handleActivityInvitation (s : State) (invitation : Invitation) : State :=
  { s with
    currentInvitation := some invitation
    invitationContent := some invitation
    invitationModalHidden := false }

/-- `showNotification(message)` (src/app.js:448-458): appends a transient
notice to the document body. -/
def showNotification (s : State) (message : String) : State :=
  { s with notifications := s.notifications ++ [message] }

/-- `handleInvitationResponse(response)` (src/app.js:439-446): builds the
human-readable notice and shows it; mutates nothing else. -/
def handleInvitationResponse (s : State) (response : InvResponse) : State :=
  let message :=
    if response.accepted then
      response.responder.username ++ " accepted your " ++ response.activity ++ " invitation!"
    else
      response.responder.username ++ " declined your " ++ response.activity ++ " invitation."
  showNotification s message

/-- A successfully parsed push envelope `{type, payload}`.  `other` stands for
any recognized-as-JSON frame whose `type` is none of the three handled kinds
(the `switch` in src/app.js:182-194 ignores it). -/
inductive Envelope where
  | newMessage (message : Message)
  | activityInvitation (invitation : Invitation)
  | invitationResponse (response : InvResponse)
  | other (ty : String)
deriving Repr, DecidableEq

/-- `handleWebSocketMessage(data)` (src/app.js:182-194): dispatch on
`data.type`; unrecognized types fall through the `switch` as a no-op. -/
def handleWebSocketMessage (s : State) (data : Envelope) : State :=
  match data with
  | Envelope.newMessage m => handleNewMessage s m
  | Envelope.activityInvitation inv => handleActivityInvitation s inv
  | Envelope.invitationResponse r => handleInvitationResponse s r
  | Envelope.other _ => s

/-- The `websocket.onmessage` handler (src/app.js:167-170):
`JSON.parse(event.data)` runs first and there is no `try`/`catch` around it,
so a malformed frame (`none` here) raises out of the handler before any state
is touched; a well-formed frame is dispatched.  The `Except.error` value marks
the raised exception. -/
def websocketOnmessage (s : State) (frame : Option Envelope) : Except Unit State :=
  match frame with
  | none => Except.error ()
  | some data => Except.ok (handleWebSocketMessage s data)

/-- Host event-loop semantics for one inbound frame: an exception thrown in a
WebSocket event handler is reported to the console by the browser and the
event loop continues with the state as it was at the throw point; it does not
terminate the page or the connection manager. -/
def deliverFrame (s : State) (frame : Option Envelope) : State :=
  match websocketOnmessage s frame with
  | Except.ok s2 => s2
  | Except.error _ => s

/-- The reconnect delay hard-coded in the `onclose` handler
(src/app.js:172-175): `setTimeout(() => this.connectWebSocket(), 3000)`. -/
def reconnectDelayMs : Nat := 3000

/-- The push-channel endpoint computed by `connectWebSocket`
(src/app.js:158-159) from the page protocol, host and user id. -/
def wsUrl (protocol host userId : String) : String :=
  protocol ++ "//" ++ host ++ "/ws/" ++ userId

/-- The scheme choice in `connectWebSocket` (src/app.js:158). -/
def wsProtocol (locationProtocol : String) : String :=
  if locationProtocol == "https:" then "wss:" else "ws:"

/-- The `websocket.onclose` handler (src/app.js:172-175): logs, leaves all
session state untouched, and schedules exactly one reconnect after the fixed
delay.  The returned number is the delay of the single scheduled attempt. -/
def websocketOnclose (s : State) : State × Eff × Nat :=
  (s, Eff.noEffect, reconnectDelayMs)

/-- The `websocket.onerror` handler (src/app.js:177-179): `console.error`
only — no alert, no state change, no teardown. -/
def websocketOnerror (s : State) : State × Eff :=
  (s, Eff.noEffect)

/-- Opening time of the n-th connection attempt, given the start time of the
first attempt and the lifetime (milliseconds until `close` fires) of each
connection epoch: every `close` schedules the next `connectWebSocket` exactly
`reconnectDelayMs` later, with no termination condition
(src/app.js:157-180). -/
def attemptTime (t0 : Nat) (life : Nat → Nat) : Nat → Nat
  | 0 => t0
  | n + 1 => attemptTime t0 life n + life n + reconnectDelayMs

/-- The endpoint used by the n-th connection attempt: `connectWebSocket`
recomputes the same template from the unchanged location and user id on every
call, so the index is ignored. -/
def attemptUrl (locationProtocol host userId : String) (_n : Nat) : String :=
  wsUrl (wsProtocol locationProtocol) host userId

/-- The host's `String.prototype.trim`: strips leading and trailing
whitespace.  Written with structural recursion on the character list so that
it computes in the kernel (Lean's own `String.trim` reduces through
`Substring` positions and does not). -/
def jsTrim (s : String) : String :=
  ⟨((s.data.dropWhile Char.isWhitespace).reverse.dropWhile Char.isWhitespace).reverse⟩

/-- `sendPublicMessage(chatSide)` reads the input `#<chatSide>-input`
(src/app.js:204-206). -/
def getInputValue (s : State) (chatSide : String) : String :=
  if chatSide == "chatwithme" then s.chatwithmeInput else s.towhomInput

/-- Writing back to `#<chatSide>-input` (src/app.js:221). -/
def setInputValue (s : State) (chatSide : String) (v : String) : State :=
  if chatSide == "chatwithme" then { s with chatwithmeInput := v }
  else { s with towhomInput := v }

/-- `sendPublicMessage(chatSide)` (src/app.js:204-226): trims the input,
returns with no request when it is empty; otherwise POSTs the form body of
src/app.js:217 and clears the input only on a 2xx response.  Failures are
logged only. -/
def sendPublicMessage (s : State) (chatSide : String) (o : FetchOutcome) : State × Eff :=
  let message := jsTrim (getInputValue s chatSide)
  if message == "" then (s, Eff.noEffect)
  else
    let req := Request.post "/messages/send"
      [("sender_id", s.currentUser.id), ("content", message), ("is_public", "true")]
    match o with
    | FetchOutcome.ok => (setInputValue s chatSide "", ⟨[req], []⟩)
    | FetchOutcome.httpError _ => (s, ⟨[req], []⟩)
    | FetchOutcome.exn => (s, ⟨[req], []⟩)

/-- `sendPrivateMessage()` (src/app.js:228-249): no-op unless the trimmed
input is non-empty and a private chat target is set; otherwise POSTs the form
body of src/app.js:240 and clears the input only on 2xx. -/
def sendPrivateMessage (s : State) (o : FetchOutcome) : State × Eff :=
  let message := jsTrim s.privateMessageInput
  if message == "" then (s, Eff.noEffect)
  else
    match s.currentPrivateChatUser with
    | none => (s, Eff.noEffect)
    | some peer =>
      let req := Request.post "/messages/send"
        [("sender_id", s.currentUser.id), ("content", message),
         ("recipient_id", peer.id), ("is_public", "false")]
      match o with
      | FetchOutcome.ok => ({ s with privateMessageInput := "" }, ⟨[req], []⟩)
      | FetchOutcome.httpError _ => (s, ⟨[req], []⟩)
      | FetchOutcome.exn => (s, ⟨[req], []⟩)

/-- `closeActivitySelectionModal()` (src/app.js:366-370): hides the modal and
clears both draft fields. -/
def closeActivitySelectionModal (s : State) : State :=
  { s with
    activityModalHidden := true
    invitationTargetUser := none
    selectedActivity := none }

/-- `sendActivityInvitation()` (src/app.js:372-401): blocks with an alert
when no activity or no target is selected; otherwise POSTs the form body of
src/app.js:386, which always includes the `message` field (the trimmed text
of the message input, possibly empty).  On 2xx it alerts success, closes the
selection modal (clearing the draft) and clears the message input; on a
delivered non-2xx it alerts the server's `detail`; on a thrown exception it
alerts generically.  In both failure cases the draft is untouched. -/
def sendActivityInvitation (s : State) (o : FetchOutcome) : State × Eff :=
  match s.selectedActivity, s.invitationTargetUser with
  | some act, some target =>
    let message := jsTrim s.invitationMessageInput
    let req := Request.post "/activities/invite"
      [("from_user_id", s.currentUser.id), ("to_user_id", target.id),
       ("activity_name", act), ("message", message)]
    match o with
    | FetchOutcome.ok =>
      ({ closeActivitySelectionModal s with invitationMessageInput := "" },
       ⟨[req], ["Invitation sent!"]⟩)
    | FetchOutcome.httpError detail =>
      (s, ⟨[req], ["Failed to send invitation: " ++ detail]⟩)
    | FetchOutcome.exn =>
      (s, ⟨[req], ["Failed to send invitation"]⟩)
  | _, _ => (s, ⟨[], ["Please select an activity"]⟩)

/-- `respondToInvitation(accept)` (src/app.js:418-437): no-op when
`currentInvitation` is null.  Otherwise POSTs the decision keyed by the
invitation id and the responding user id; only a 2xx response hides the
decision modal and clears `currentInvitation`.  A delivered non-2xx response
does nothing at all (no alert); a thrown exception is logged only. -/
def respondToInvitation (s : State) (accept : Bool) (o : FetchOutcome) : State × Eff :=
  match s.currentInvitation with
  | none => (s, Eff.noEffect)
  | some inv =>
    let req := Request.post ("/activities/invitations/" ++ inv.id ++ "/respond")
      [("user_id", s.currentUser.id), ("accept", if accept then "true" else "false")]
    match o with
    | FetchOutcome.ok =>
      ({ s with invitationModalHidden := true, currentInvitation := none }, ⟨[req], []⟩)
    | FetchOutcome.httpError _ => (s, ⟨[req], []⟩)
    | FetchOutcome.exn => (s, ⟨[req], []⟩)

/-- The fixed local-storage key of src/app.js:16 and src/app.js:105. -/
def storageKey : String := "chatwithme_user"

/-- The pre-login state of the app: the durable store (modelled as an
association list from keys to the stored `User`; `JSON.stringify` /
`JSON.parse` round-trip is the host's), the not-yet-set `currentUser`, and
the two top-level views. -/
structure Startup where
  store : List (String × User)
  currentUser : Option User
  loginModalHidden : Bool
  mainInterfaceHidden : Bool
deriving Repr, DecidableEq

/-- `localStorage.getItem`. -/
def getItem (store : List (String × User)) (k : String) : Option User :=
  (store.find? (fun p => p.1 == k)).map (fun p => p.2)

/-- `localStorage.setItem`: overwrites any previous value under the key. -/
def setItem (store : List (String × User)) (k : String) (v : User) : List (String × User) :=
  (k, v) :: store.filter (fun p => p.1 != k)

/-- `init()` (src/app.js:14-25): if a record exists under the fixed key, the
identity is restored and the main interface shown (login modal hidden);
otherwise the login modal is shown and the main interface hidden. -/
def appInit (st : Startup) : Startup :=
  match getItem st.store storageKey with
  | some savedUser =>
    { st with
      currentUser := some savedUser
      loginModalHidden := true
      mainInterfaceHidden := false }
  | none =>
    { st with loginModalHidden := false, mainInterfaceHidden := true }

/-- Outcome of the `/users/create` call in `handleLogin`: a 2xx response
carrying the created user, a non-2xx response whose extracted error message
is `detail || message || 'Unknown error occurred'`, or a thrown exception. -/
inductive LoginOutcome where
  | ok (u : User)
  | err (msg : String)
  | exn
deriving Repr, DecidableEq

/-- `handleLogin(e)` (src/app.js:86-116): trims the username input and
returns when empty; on a 2xx response sets `currentUser`, stores it under the
fixed key and shows the main interface; otherwise alerts. -/
def handleLogin (st : Startup) (input : String) (o : LoginOutcome) : Startup × List String :=
  let username := jsTrim input
  if username == "" then (st, [])
  else
    match o with
    | LoginOutcome.ok u =>
      ({ st with
         currentUser := some u
         store := setItem st.store storageKey u
         loginModalHidden := true
         mainInterfaceHidden := false }, [])
    | LoginOutcome.err msg => (st, ["Failed to create user: " ++ msg])
    | LoginOutcome.exn => (st, ["Failed to connect to server"])

/-! Concrete sample data used by counterexamples and witnesses. -/

/-- Sample user on side `chatwithme`. -/
def alice : User := ⟨"u1", "alice", "a.png", "chatwithme"⟩

/-- Sample user on side `towhomilovethemost`. -/
def bob : User := ⟨"u2", "bob", "b.png", "towhomilovethemost"⟩

/-- Sample third user. -/
def carol : User := ⟨"u3", "carol", "c.png", "chatwithme"⟩

/-- A fresh logged-in session for `u` with empty surfaces, no private chat
open, no draft and no pending invitation. -/
def emptyState (u : User) : State where
  currentUser := u
  contacts := []
  currentPrivateChatUser := none
  selectedActivity := none
  invitationTargetUser := none
  currentInvitation := none
  chatwithmeMessages := []
  towhomMessages := []
  privateMessages := []
  chatwithmeInput := ""
  towhomInput := ""
  privateMessageInput := ""
  invitationMessageInput := ""
  invitationModalHidden := true
  activityModalHidden := true
  privateChatModalHidden := true
  invitationContent := none
  notifications := []

/-- A private message from carol to alice. -/
def privMsgFromCarol : Message :=
  { sender := carol, content := "hi", timestamp := "2024-01-01T00:00:00Z",
    is_public := false, recipient_id := some "u1" }

/-- A public message from bob. -/
def pubMsgFromBob : Message :=
  { sender := bob, content := "hello all", timestamp := "2024-01-01T00:00:01Z",
    is_public := true, recipient_id := none }

/-- A chess invitation from bob. -/
def chessInv : Invitation :=
  { id := "X", from_user := bob, activity := "chess", message := "" }

/-- A second invitation, from carol. -/
def dartsInv : Invitation :=
  { id := "Y", from_user := carol, activity := "darts", message := "come" }

/-- Alice's session with the chess invitation pending and the decision modal
open. -/
def stateWithInv : State :=
  { emptyState alice with currentInvitation := some chessInv, invitationModalHidden := false }

/-- Alice's session with a draft: chess selected, bob targeted, empty message
text. -/
def stateWithDraft : State :=
  { emptyState alice with
    selectedActivity := some "chess"
    invitationTargetUser := some bob
    activityModalHidden := false }

/-- A pre-login app state whose durable store holds alice under the fixed
key. -/
def startupWithAlice : Startup :=
  { store := [(storageKey, alice)], currentUser := none,
    loginModalHidden := true, mainInterfaceHidden := true }

/-- A pre-login app state with an empty durable store. -/
def startupEmpty : Startup :=
  { store := [], currentUser := none,
    loginModalHidden := true, mainInterfaceHidden := true }

/-! Claim theorems. -/

/-- Claim C1, counterexample: the claim says a private message is rendered
into the private surface only when `active_private_peer` is set and matches
the sender or recipient, and is rendered nowhere when no private chat is
open.  In the code, with no private chat open (`currentPrivateChatUser =
none`), the inbound private message from carol is still appended to the
private-messages surface. -/
theorem c1_counterexample :
    (emptyState alice).currentPrivateChatUser = none
    ∧ privMsgFromCarol.is_public = false
    ∧ (handleNewMessage (emptyState alice) privMsgFromCarol).privateMessages
        ≠ (emptyState alice).privateMessages := by
  refine ⟨rfl, rfl, ?_⟩
  decide

/-- Claim C1 (amended): `handleNewMessage` appends every inbound private
message to the single private-messages surface unconditionally — regardless
of `currentPrivateChatUser` — and never to the public surfaces; there is no
peer filtering (src/app.js:196-202, 494-500). -/
theorem c1_private_message_rendered_unconditionally (s : State) (m : Message)
    (h : m.is_public = false) :
    handleNewMessage s m
      = { s with privateMessages :=
            s.privateMessages ++ [(m, m.sender.id == s.currentUser.id)] } := by
  simp [handleNewMessage, addMessageToChat, h]

/-- Claim C1 witness: the amended theorem evaluated at the concrete
counterexample session. -/
theorem c1_private_message_rendered_unconditionally_witness :
    handleNewMessage (emptyState alice) privMsgFromCarol
      = { emptyState alice with privateMessages :=
            (emptyState alice).privateMessages
              ++ [(privMsgFromCarol,
                   privMsgFromCarol.sender.id == (emptyState alice).currentUser.id)] } :=
  c1_private_message_rendered_unconditionally (emptyState alice) privMsgFromCarol rfl

/-- Claim C2: a malformed inbound push frame (JSON parsing fails) raises out
of the `onmessage` handler before any state mutation — the code has no
`try`/`catch` — and under browser event-loop semantics the session state
observable afterwards is exactly the prior state: the frame is dropped, the
manager does not crash. -/
theorem c2_malformed_frame_drops_without_state_change (s : State) :
    websocketOnmessage s none = Except.error ()
    ∧ deliverFrame s none = s :=
  ⟨rfl, rfl⟩

/-- Claim C3: every inbound public message is appended (with its sent/received
classification) to BOTH public room surfaces; the result does not depend on
`m.sender.chat_side` or `s.currentUser.chat_side` (neither field is read:
the equation holds for all values of both). -/
theorem c3_public_message_both_surfaces (s : State) (m : Message)
    (h : m.is_public = true) :
    handleNewMessage s m
      = { s with
          chatwithmeMessages :=
            s.chatwithmeMessages ++ [(m, m.sender.id == s.currentUser.id)]
          towhomMessages :=
            s.towhomMessages ++ [(m, m.sender.id == s.currentUser.id)] } := by
  simp [handleNewMessage, addMessageToChat, h]

/-- Claim C3 witness: a public message from bob (side `towhomilovethemost`)
delivered to alice's session (side `chatwithme`) lands in both surfaces. -/
theorem c3_public_message_both_surfaces_witness :
    handleNewMessage (emptyState alice) pubMsgFromBob
      = { emptyState alice with
          chatwithmeMessages :=
            (emptyState alice).chatwithmeMessages
              ++ [(pubMsgFromBob, pubMsgFromBob.sender.id == (emptyState alice).currentUser.id)]
          towhomMessages :=
            (emptyState alice).towhomMessages
              ++ [(pubMsgFromBob, pubMsgFromBob.sender.id == (emptyState alice).currentUser.id)] } :=
  c3_public_message_both_surfaces (emptyState alice) pubMsgFromBob rfl

/-- Claim C4: two consecutive inbound `activity_invitation` events without an
intervening respond leave `currentInvitation` equal to the second invitation
only — `handleActivityInvitation` overwrites unconditionally, no queue
(src/app.js:403-404). -/
theorem c4_second_invitation_overwrites (s : State) (i1 i2 : Invitation) :
    (handleWebSocketMessage (handleWebSocketMessage s (Envelope.activityInvitation i1))
        (Envelope.activityInvitation i2)).currentInvitation = some i2 := by
  simp [handleWebSocketMessage, handleActivityInvitation]

/-- Claim C5: with a pending invitation, a 2xx response to the respond
request clears `currentInvitation` and hides the decision modal; a thrown
network exception leaves the whole state unchanged, so the user may retry
(src/app.js:418-437). -/
theorem c5_respond_clears_on_success_retains_on_exn (s : State) (inv : Invitation)
    (accept : Bool) (h : s.currentInvitation = some inv) :
    ((respondToInvitation s accept FetchOutcome.ok).1.currentInvitation = none
      ∧ (respondToInvitation s accept FetchOutcome.ok).1.invitationModalHidden = true)
    ∧ (respondToInvitation s accept FetchOutcome.exn).1 = s := by
  simp [respondToInvitation, h]

/-- Claim C5 witness: the theorem evaluated at a concrete session holding the
chess invitation. -/
theorem c5_respond_clears_on_success_retains_on_exn_witness :
    ((respondToInvitation stateWithInv true FetchOutcome.ok).1.currentInvitation = none
      ∧ (respondToInvitation stateWithInv true FetchOutcome.ok).1.invitationModalHidden = true)
    ∧ (respondToInvitation stateWithInv true FetchOutcome.exn).1 = stateWithInv :=
  c5_respond_clears_on_success_retains_on_exn stateWithInv chessInv true rfl

/-- Claim C6: with an activity selected and a target set, the invite request
is issued for every outcome and its body always contains the `message` field
(the trimmed message text, the empty string included); on 2xx the draft
(`selectedActivity`, `invitationTargetUser`) is cleared; on a delivered
non-2xx the server's `detail` is alerted and the state — the draft included —
is left intact (src/app.js:372-401). -/
theorem c6_invite_draft_lifecycle (s : State) (act : String) (target : User)
    (detail : String) (h1 : s.selectedActivity = some act)
    (h2 : s.invitationTargetUser = some target) :
    (∀ o : FetchOutcome,
       (sendActivityInvitation s o).2.requests
         = [Request.post "/activities/invite"
             [("from_user_id", s.currentUser.id), ("to_user_id", target.id),
              ("activity_name", act), ("message", jsTrim s.invitationMessageInput)]])
    ∧ ((sendActivityInvitation s FetchOutcome.ok).1.selectedActivity = none
        ∧ (sendActivityInvitation s FetchOutcome.ok).1.invitationTargetUser = none)
    ∧ ((sendActivityInvitation s (FetchOutcome.httpError detail)).2.alerts
          = ["Failed to send invitation: " ++ detail]
        ∧ (sendActivityInvitation s (FetchOutcome.httpError detail)).1 = s) := by
  refine ⟨fun o => ?_, ?_, ?_, ?_⟩
  · cases o <;> simp [sendActivityInvitation, h1, h2]
  · simp [sendActivityInvitation, h1, h2, closeActivitySelectionModal]
  · simp [sendActivityInvitation, h1, h2, closeActivitySelectionModal]
  · simp [sendActivityInvitation, h1, h2]

/-- Claim C6 witness: alice proposes chess to bob with an empty message text;
the request carries `message=` as the empty string, and on success the draft
is cleared. -/
theorem c6_invite_draft_lifecycle_witness :
    jsTrim stateWithDraft.invitationMessageInput = ""
    ∧ (sendActivityInvitation stateWithDraft FetchOutcome.ok).2.requests
        = [Request.post "/activities/invite"
            [("from_user_id", stateWithDraft.currentUser.id), ("to_user_id", bob.id),
             ("activity_name", "chess"),
             ("message", jsTrim stateWithDraft.invitationMessageInput)]]
    ∧ (sendActivityInvitation stateWithDraft FetchOutcome.ok).1.selectedActivity = none
    ∧ (sendActivityInvitation stateWithDraft FetchOutcome.ok).1.invitationTargetUser = none
    ∧ (sendActivityInvitation stateWithDraft (FetchOutcome.httpError "no such user")).1
        = stateWithDraft := by
  have h := c6_invite_draft_lifecycle stateWithDraft "chess" bob "no such user" rfl rfl
  exact ⟨by decide, h.1 FetchOutcome.ok, h.2.1.1, h.2.1.2, h.2.2.2⟩

/-- Claim C7: each user action with an unmet precondition is a no-op on the
session state and issues no request: sending a public message with empty
(trimmed) content, sending a private message with empty content, proposing
with no activity selected (the blocking `alert` prompt aside), and responding
with no pending invitation (src/app.js:209, 232, 373-376, 419). -/
theorem c7_unmet_preconditions_are_noops (s : State) (chatSide : String)
    (accept : Bool) (o1 o2 o3 o4 : FetchOutcome) :
    (jsTrim (getInputValue s chatSide) = "" →
       sendPublicMessage s chatSide o1 = (s, Eff.noEffect))
    ∧ (jsTrim s.privateMessageInput = "" →
       sendPrivateMessage s o2 = (s, Eff.noEffect))
    ∧ (s.selectedActivity = none →
       (sendActivityInvitation s o3).1 = s ∧ (sendActivityInvitation s o3).2.requests = [])
    ∧ (s.currentInvitation = none →
       respondToInvitation s accept o4 = (s, Eff.noEffect)) := by
  refine ⟨fun h => ?_, fun h => ?_, fun h => ?_, fun h => ?_⟩
  · simp [sendPublicMessage, h]
  · simp [sendPrivateMessage, h]
  · cases h2 : s.invitationTargetUser <;> simp [sendActivityInvitation, h, h2]
  · simp [respondToInvitation, h]

/-- Claim C7 witness: in a fresh session (empty inputs, no draft, no pending
invitation) all four actions are no-ops with no request. -/
theorem c7_unmet_preconditions_are_noops_witness :
    sendPublicMessage (emptyState alice) "chatwithme" FetchOutcome.ok
        = (emptyState alice, Eff.noEffect)
    ∧ sendPrivateMessage (emptyState alice) FetchOutcome.ok
        = (emptyState alice, Eff.noEffect)
    ∧ ((sendActivityInvitation (emptyState alice) FetchOutcome.ok).1 = emptyState alice
        ∧ (sendActivityInvitation (emptyState alice) FetchOutcome.ok).2.requests = [])
    ∧ respondToInvitation (emptyState alice) true FetchOutcome.ok
        = (emptyState alice, Eff.noEffect) := by
  have h := c7_unmet_preconditions_are_noops (emptyState alice) "chatwithme"
    true FetchOutcome.ok FetchOutcome.ok FetchOutcome.ok FetchOutcome.ok
  exact ⟨h.1 (by decide), h.2.1 (by decide), h.2.2.1 rfl, h.2.2.2 rfl⟩

/-- Claim C8: at startup, a stored record under the fixed key restores that
identity and shows the main interface; an absent record shows the login flow;
a successful login stores the created user under the same fixed key
(src/app.js:14-25, 103-106). -/
theorem c8_identity_persistence (st1 st2 : Startup) (u : User) (input : String)
    (h1 : getItem st1.store storageKey = some u)
    (h2 : getItem st2.store storageKey = none)
    (hin : jsTrim input ≠ "") :
    ((appInit st1).currentUser = some u
      ∧ (appInit st1).mainInterfaceHidden = false
      ∧ (appInit st1).loginModalHidden = true)
    ∧ ((appInit st2).loginModalHidden = false
      ∧ (appInit st2).mainInterfaceHidden = true)
    ∧ getItem (handleLogin st1 input (LoginOutcome.ok u)).1.store storageKey = some u := by
  refine ⟨⟨?_, ?_, ?_⟩, ⟨?_, ?_⟩, ?_⟩
  · simp [appInit, h1]
  · simp [appInit, h1]
  · simp [appInit, h1]
  · simp [appInit, h2]
  · simp [appInit, h2]
  · simp [handleLogin, hin, getItem, setItem]

/-- Claim C8 witness: the theorem evaluated at a store holding alice under
the key, an empty store, and the login input `alice`. -/
theorem c8_identity_persistence_witness :
    ((appInit startupWithAlice).currentUser = some alice
      ∧ (appInit startupWithAlice).mainInterfaceHidden = false
      ∧ (appInit startupWithAlice).loginModalHidden = true)
    ∧ ((appInit startupEmpty).loginModalHidden = false
      ∧ (appInit startupEmpty).mainInterfaceHidden = true)
    ∧ getItem (handleLogin startupWithAlice "alice" (LoginOutcome.ok alice)).1.store
        storageKey = some alice :=
  c8_identity_persistence startupWithAlice startupEmpty alice "alice"
    rfl rfl (by decide)

/-- Claim C9: every channel close leaves the state untouched and schedules
exactly one reconnect after the fixed 3000 ms delay; the delay between the
n-th close and the next attempt is the same constant for every n (no backoff
growth) and `attemptTime` is total (no maximum retry count); every attempt
targets the same endpoint; the error handler surfaces nothing to the user
(src/app.js:157-180). -/
theorem c9_reconnect_fixed_delay (t0 : Nat) (life : Nat → Nat) (n : Nat)
    (locationProtocol host userId : String) (s : State) :
    attemptTime t0 life (n + 1) = attemptTime t0 life n + life n + 3000
    ∧ reconnectDelayMs = 3000
    ∧ websocketOnclose s = (s, Eff.noEffect, reconnectDelayMs)
    ∧ websocketOnerror s = (s, Eff.noEffect)
    ∧ attemptUrl locationProtocol host userId (n + 1)
        = attemptUrl locationProtocol host userId 0 :=
  ⟨rfl, rfl, rfl, rfl, rfl⟩

/-- Claim C10: with a pending invitation, a delivered non-2xx response to the
respond request leaves the entire state unchanged — invitation still set,
decision modal not hidden — shows no alert, and the request was issued
(src/app.js:422-433: only `response.ok` mutates, the else branch does
nothing). -/
theorem c10_http_error_retains_silently (s : State) (inv : Invitation)
    (accept : Bool) (detail : String) (h : s.currentInvitation = some inv) :
    (respondToInvitation s accept (FetchOutcome.httpError detail)).1 = s
    ∧ (respondToInvitation s accept (FetchOutcome.httpError detail)).2.alerts = []
    ∧ (respondToInvitation s accept (FetchOutcome.httpError detail)).2.requests
        = [Request.post ("/activities/invitations/" ++ inv.id ++ "/respond")
            [("user_id", s.currentUser.id),
             ("accept", if accept then "true" else "false")]] := by
  simp [respondToInvitation, h]

/-- Claim C10 witness: the theorem evaluated at the concrete session holding
the chess invitation, for a 404-style failure. -/
theorem c10_http_error_retains_silently_witness :
    (respondToInvitation stateWithInv true (FetchOutcome.httpError "not found")).1
        = stateWithInv
    ∧ (respondToInvitation stateWithInv true (FetchOutcome.httpError "not found")).2.alerts = []
    ∧ (respondToInvitation stateWithInv true (FetchOutcome.httpError "not found")).2.requests
        = [Request.post "/activities/invitations/X/respond"
            [("user_id", "u1"), ("accept", "true")]] := by
  have h := c10_http_error_retains_silently stateWithInv chessInv true "not found" rfl
  exact ⟨h.1, h.2.1, by simpa using h.2.2⟩
